import Mathlib

/-!
Shallow embedding of the data-access and service layers of the pgxtutorial
inventory system (internal/postgres/postgres.go and internal/inventory),
together with proofs of the specification claims about executor resolution,
error translation, validation, and the count-then-page search algorithm.

Go errors are embedded as an inductive type `GoErr`; fallible statements are
embedded as `Except GoErr` outcomes; each repository method becomes a Lean
function over the outcome of its underlying statement, translated line by
line from the Go source.
-/

namespace Pgxtutorial

/-- Go error values, as observed by the repository layer: the two context
sentinel errors, pgx's no-rows sentinel, backend `*pgconn.PgError` values
(code and constraint name), the service layer's `ValidationError`, values
created by `errors.New`, and wrapped errors (`fmt.Errorf` with `%w`). -/
inductive GoErr where
  | canceled
  | deadlineExceeded
  | errNoRows
  | pgError (code : String) (constraintName : String)
  | validation (msg : String)
  | errorsNew (msg : String)
  | wrap (inner : GoErr)
  deriving DecidableEq, Repr

/-- Go `errors.Is`: identity at the top level, else unwrap. -/
def errorsIs (e target : GoErr) : Bool :=
  match e with
  | .wrap i => e == target || errorsIs i target
  | _ => e == target

/-- Go `errors.As` specialized to `*pgconn.PgError`: returns the code and
constraint name of the first PgError in the wrap chain. -/
def asPgError : GoErr → Option (String × String)
  | .pgError c n => some (c, n)
  | .wrap i => asPgError i
  | _ => none

/-- pgerrcode.UniqueViolation. -/
def uniqueViolation : String := "23505"

/-- pgerrcode.ForeignKeyViolation. -/
def foreignKeyViolation : String := "23503"

/-- pgerrcode.CheckViolation. -/
def checkViolation : String := "23514"

/-- Sentinel `ErrProductNotFound` (postgres.go). -/
def ErrProductNotFound : GoErr := .errorsNew "product not found"

/-- Sentinel `ErrReviewNotFound` (postgres.go). -/
def ErrReviewNotFound : GoErr := .errorsNew "product review not found"

/-- Sentinel `inventory.ErrCreateReviewNoProduct`. -/
def ErrCreateReviewNoProduct : GoErr := .errorsNew "cannot find product to create review"

/-- Embedding of `DB.productPgError` from internal/postgres/postgres.go. -/
def productPgError (err : GoErr) : Option GoErr :=
  match asPgError err with
  | none => none
  | some (code, constraintName) =>
    if code == uniqueViolation then
      some (.errorsNew "product already exists")
    else if code == checkViolation then
      match constraintName with
      | "product_id_check" => some (.errorsNew "invalid product ID")
      | "product_name_check" => some (.errorsNew "invalid product name")
      | "product_price_check" => some (.errorsNew "invalid price")
      | _ => none
    else none

/-- Embedding of `DB.productReviewPgError` from internal/postgres/postgres.go. -/
def productReviewPgError (err : GoErr) : Option GoErr :=
  match asPgError err with
  | none => none
  | some (code, constraintName) =>
    if code == uniqueViolation then
      some (.errorsNew "product review already exists")
    else if code == foreignKeyViolation && constraintName == "review_product_id_fkey" then
      some ErrCreateReviewNoProduct
    else if code == checkViolation then
      match constraintName with
      | "review_id_check" => some (.errorsNew "invalid product review ID")
      | "review_title_check" => some (.errorsNew "invalid title")
      | "review_score_check" => some (.errorsNew "invalid score")
      | _ => none
    else none

/-- Outcome of an `Exec` call: a backend error, or the command tag's
rows-affected count. -/
abbrev ExecResult := Except GoErr Nat

/-- Embedding of `DB.CreateProduct` error handling: the switch on the `Exec` outcome.
Cancellation is detected with `errors.Is`. -/
def createProduct (res : ExecResult) : Option GoErr :=
  match res with
  | .error err =>
    if errorsIs err .canceled || errorsIs err .deadlineExceeded then some err
    else
      match productPgError err with
      | some sqlErr => some sqlErr
      | none => some (.errorsNew "cannot create product on database")
  | .ok _ => none

/-- Embedding of `DB.UpdateProduct` error handling. Note the source compares the error
with `==` (identity), not `errors.Is`; a zero rows-affected count yields
`ErrProductNotFound`. -/
def updateProduct (res : ExecResult) : Option GoErr :=
  match res with
  | .error err =>
    if err == .canceled || err == .deadlineExceeded then some err
    else
      match productPgError err with
      | some sqlErr => some sqlErr
      | none => some (.errorsNew "cannot update product on database")
  | .ok rowsAffected =>
    if rowsAffected == 0 then some ErrProductNotFound else none

/-- Embedding of `DB.DeleteProduct` error handling: the rows-affected count is ignored. -/
def deleteProduct (res : ExecResult) : Option GoErr :=
  match res with
  | .error err =>
    if errorsIs err .canceled || errorsIs err .deadlineExceeded then some err
    else some (.errorsNew "cannot delete product from database")
  | .ok _ => none

/-- Embedding of `DB.CreateProductReview` error handling. -/
def createProductReview (res : ExecResult) : Option GoErr :=
  match res with
  | .error err =>
    if errorsIs err .canceled || errorsIs err .deadlineExceeded then some err
    else
      match productReviewPgError err with
      | some sqlErr => some sqlErr
      | none => some (.errorsNew "cannot create review on database")
  | .ok _ => none

/-- Embedding of `DB.UpdateProductReview` error handling (uses `errors.Is`); zero rows
affected yields `ErrReviewNotFound`. -/
def updateProductReview (res : ExecResult) : Option GoErr :=
  match res with
  | .error err =>
    if errorsIs err .canceled || errorsIs err .deadlineExceeded then some err
    else
      match productReviewPgError err with
      | some sqlErr => some sqlErr
      | none => some (.errorsNew "cannot update review on database")
  | .ok rowsAffected =>
    if rowsAffected == 0 then some ErrReviewNotFound else none

/-- Embedding of `DB.DeleteProductReview` error handling. -/
def deleteProductReview (res : ExecResult) : Option GoErr :=
  match res with
  | .error err =>
    if errorsIs err .canceled || errorsIs err .deadlineExceeded then some err
    else some (.errorsNew "cannot delete review from database")
  | .ok _ => none

/-- Embedding of `pgx.CollectOneRow`: the first returned row, or `pgx.ErrNoRows`. -/
def collectOneRow {α : Type} (rows : List α) : Except GoErr α :=
  match rows with
  | [] => .error .errNoRows
  | r :: _ => .ok r

/-- Embedding of `DB.GetProduct` control flow. The source first checks the
`Query` error (via `errors.Is`) for cancellation and returns it verbatim;
only when `Query` succeeded does `pgx.CollectOneRow` run, and its error
reaches only the `pgx.ErrNoRows` check (nil result, nil error) and the
generic fallthrough — a collection-stage cancellation error is NOT passed
through. The two stages are therefore separate parameters: the `Query`
error (if any) and the collection outcome. -/
def getProduct {α : Type} (queryErr : Option GoErr) (collectRes : Except GoErr α) :
    Except GoErr (Option α) :=
  match queryErr with
  | some err =>
    if errorsIs err .canceled || errorsIs err .deadlineExceeded then .error err
    else if errorsIs err .errNoRows then .ok none
    else .error (.errorsNew "cannot get product from database")
  | none =>
    match collectRes with
    | .error err =>
      if errorsIs err .errNoRows then .ok none
      else .error (.errorsNew "cannot get product from database")
    | .ok p => .ok (some p)

/-- Embedding of `DB.GetProductReview` control flow: same two stages as
`DB.GetProduct` — cancellation is checked on the `Query` error only, and a
`pgx.CollectOneRow` error other than `pgx.ErrNoRows` (cancellation
included) becomes the generic message. -/
def getProductReview {α : Type} (queryErr : Option GoErr) (collectRes : Except GoErr α) :
    Except GoErr (Option α) :=
  match queryErr with
  | some err =>
    if errorsIs err .canceled || errorsIs err .deadlineExceeded then .error err
    else if errorsIs err .errNoRows then .ok none
    else .error (.errorsNew "cannot get product review from database")
  | none =>
    match collectRes with
    | .error err =>
      if errorsIs err .errNoRows then .ok none
      else .error (.errorsNew "cannot get product review from database")
    | .ok r => .ok (some r)

/-- Embedding of `DB.SearchProducts` error handling: the count query
outcome first, then the page `Query` error, then the `pgx.CollectRows`
outcome. The two cancellation checks compare with `==` (identity) and run
only on the count outcome and the page `Query` error; a `CollectRows`
error always becomes the generic message, as in the source. -/
def searchProductsWithOutcomes {α : Type}
    (countRes : Except GoErr Int) (pageQueryErr : Option GoErr)
    (collectRes : Except GoErr (List α)) :
    Except GoErr (List α × Int) :=
  match countRes with
  | .error err =>
    if err == .canceled || err == .deadlineExceeded then .error err
    else .error (.errorsNew "cannot get product")
  | .ok total =>
    match pageQueryErr with
    | some err =>
      if err == .canceled || err == .deadlineExceeded then .error err
      else .error (.errorsNew "cannot get products")
    | none =>
      match collectRes with
      | .error _ => .error (.errorsNew "cannot get products")
      | .ok rows => .ok (rows, total)

/-- Embedding of `DB.GetProductReviews` error handling: count outcome,
then the page `Query` error, then the `pgx.CollectRows` outcome; identity
cancellation checks on the first two only, and a `CollectRows` error
always becomes the generic message. -/
def getProductReviewsWithOutcomes {α : Type}
    (countRes : Except GoErr Int) (pageQueryErr : Option GoErr)
    (collectRes : Except GoErr (List α)) :
    Except GoErr (List α × Int) :=
  match countRes with
  | .error err =>
    if err == .canceled || err == .deadlineExceeded then .error err
    else .error (.errorsNew "cannot get reviews")
  | .ok total =>
    match pageQueryErr with
    | some err =>
      if err == .canceled || err == .deadlineExceeded then .error err
      else .error (.errorsNew "cannot get reviews")
    | none =>
      match collectRes with
      | .error _ => .error (.errorsNew "cannot get reviews")
      | .ok rows => .ok (rows, total)

/-- Embedding of `inventory.Pagination`: a limit and an offset (Go `int`). -/
structure Pagination where
  limit : Int
  offset : Int
  deriving DecidableEq, Repr

/-- Embedding of `Pagination.Validate` from inventory/service.go. -/
def paginationValidate (p : Pagination) : Option GoErr :=
  if p.limit < 1 then some (.validation "pagination limit must be at least 1")
  else if p.offset < 0 then some (.validation "pagination offset cannot be negative")
  else none

/-- Embedding of `inventory.CreateProductParams`. -/
structure CreateProductParams where
  id : String
  name : String
  description : String
  price : Int
  deriving DecidableEq, Repr

/-- Embedding of `CreateProductParams.validate` from inventory/product.go. -/
def createProductParamsValidate (p : CreateProductParams) : Option GoErr :=
  if p.id == "" then some (.validation "missing product ID")
  else if p.name == "" then some (.validation "missing product name")
  else if p.description == "" then some (.validation "missing product description")
  else if p.price < 0 then some (.validation "price cannot be negative")
  else none

/-- Embedding of `Service.CreateProduct`: validate, then issue the create to the store.
The second component records whether the create reached the store. -/
def serviceCreateProduct (params : CreateProductParams) (res : ExecResult) :
    Option GoErr × Bool :=
  match createProductParamsValidate params with
  | some e => (some e, false)
  | none => (createProduct res, true)

/-- Embedding of `inventory.SearchProductsParams`. -/
structure SearchProductsParams where
  queryString : String
  minPrice : Int
  maxPrice : Int
  pagination : Pagination
  deriving DecidableEq, Repr

/-- Embedding of `SearchProductsParams.validate` from inventory/product.go. -/
def searchProductsParamsValidate (p : SearchProductsParams) : Option GoErr :=
  if p.queryString == "" then some (.validation "missing search string")
  else if p.minPrice < 0 then some (.validation "min price cannot be negative")
  else if p.maxPrice < 0 then some (.validation "max price cannot be negative")
  else paginationValidate p.pagination

/-- Embedding of `inventory.ProductReviewsParams`. -/
structure ProductReviewsParams where
  productId : String
  reviewerId : String
  pagination : Pagination
  deriving DecidableEq, Repr

/-- A `product` table row (timestamps as abstract ticks). -/
structure ProductRow where
  id : String
  name : String
  description : String
  price : Int
  createdAt : Nat
  modifiedAt : Nat
  deriving DecidableEq, Repr

/-- A `review` table row. -/
structure ReviewRow where
  id : String
  productId : String
  reviewerId : String
  score : Int
  title : String
  description : String
  createdAt : Nat
  modifiedAt : Nat
  deriving DecidableEq, Repr

/-- A positional SQL argument. -/
inductive SqlArg where
  | str (s : String)
  | int (i : Int)
  deriving DecidableEq, Repr

/-- A statement issued to the backend: SQL text plus positional arguments. -/
structure Statement where
  sql : String
  args : List SqlArg
  deriving DecidableEq, Repr

/-- SQL `LIKE` pattern matching over characters: `%` matches any run,
`_` any single character. -/
def likeMatch : List Char → List Char → Bool
  | [], [] => true
  | [], _ :: _ => false
  | '%' :: ps, [] => likeMatch ps []
  | '%' :: ps, c :: s => likeMatch ps (c :: s) || likeMatch ('%' :: ps) s
  | '_' :: _, [] => false
  | '_' :: ps, _ :: s => likeMatch ps s
  | _ :: _, [] => false
  | p :: ps, c :: s => p == c && likeMatch ps s
termination_by p s => (p.length, s.length)

/-- SQL `LIKE` on strings. -/
def likeMatchStr (pat s : String) : Bool := likeMatch pat.toList s.toList

/-- Embedding of `DB.SearchProducts` filter construction: the argument list and the
`WHERE` conjuncts, with price clauses appended only for non-zero values. -/
def searchProductsWhereArgs (params : SearchProductsParams) : List SqlArg × List String :=
  let args : List SqlArg := [.str ("%" ++ params.queryString ++ "%")]
  let w : List String := ["name LIKE $1"]
  let (args, w) :=
    if params.minPrice ≠ 0 then
      let a := args ++ [SqlArg.int params.minPrice]
      (a, w ++ ["\"price\" >= $" ++ toString a.length])
    else (args, w)
  if params.maxPrice ≠ 0 then
    let a := args ++ [SqlArg.int params.maxPrice]
    (a, w ++ ["\"price\" <= $" ++ toString a.length])
  else (args, w)

/-- The joined `WHERE` clause of `DB.SearchProducts`. -/
def searchWhereClause (params : SearchProductsParams) : String :=
  String.intercalate " AND " (searchProductsWhereArgs params).2

/-- The count statement SQL of `DB.SearchProducts`. -/
def searchCountSql (params : SearchProductsParams) : String :=
  "SELECT COUNT(*) AS total FROM \"product\" WHERE " ++ searchWhereClause params

/-- The page statement SQL of `DB.SearchProducts` before pagination clauses. -/
def searchOrderedSql (params : SearchProductsParams) : String :=
  "SELECT * FROM \"product\" WHERE " ++ searchWhereClause params ++ " ORDER BY \"id\" DESC"

/-- Pagination clause construction shared by `DB.SearchProducts` and
`DB.GetProductReviews`: `LIMIT`/`OFFSET` are appended only for non-zero
values, each adding one positional argument. -/
def sqlAppendPagination (p : Pagination) (sqlArgs : String × List SqlArg) :
    String × List SqlArg :=
  let args1 := if p.limit ≠ 0 then sqlArgs.2 ++ [SqlArg.int p.limit] else sqlArgs.2
  let sql1 :=
    if p.limit ≠ 0 then sqlArgs.1 ++ (" LIMIT $" ++ toString args1.length) else sqlArgs.1
  let args2 := if p.offset ≠ 0 then args1 ++ [SqlArg.int p.offset] else args1
  let sql2 :=
    if p.offset ≠ 0 then sql1 ++ (" OFFSET $" ++ toString args2.length) else sql1
  (sql2, args2)

/-- The semantics of the `WHERE` clause built by `DB.SearchProducts`:
`name LIKE '%'||q||'%'`, with the price bounds present only when the
corresponding parameter is non-zero. -/
def productMatches (params : SearchProductsParams) (p : ProductRow) : Bool :=
  likeMatchStr ("%" ++ params.queryString ++ "%") p.name
    && (params.minPrice == 0 || p.price ≥ params.minPrice)
    && (params.maxPrice == 0 || p.price ≤ params.maxPrice)

/-- The semantics of the `WHERE` clause built by `DB.GetProductReviews`:
each equality filter is present only when the parameter is non-empty. -/
def reviewMatches (params : ProductReviewsParams) (r : ReviewRow) : Bool :=
  (params.productId == "" || r.productId == params.productId)
    && (params.reviewerId == "" || r.reviewerId == params.reviewerId)

/-- Insertion step of a sort descending by a key. -/
def insertDescBy {α : Type} {κ : Type} [LinearOrder κ] (key : α → κ) (x : α) :
    List α → List α
  | [] => [x]
  | y :: ys => if key y ≤ key x then x :: y :: ys else y :: insertDescBy key x ys

/-- Sort a list descending by a key (the semantics of `ORDER BY _ DESC`). -/
def sortDescBy {α : Type} {κ : Type} [LinearOrder κ] (key : α → κ) :
    List α → List α
  | [] => []
  | x :: xs => insertDescBy key x (sortDescBy key xs)

/-- Backend semantics of an ordered page query: apply `OFFSET` (when
present) then `LIMIT` (when present) to the sorted matching rows. -/
def runPageQuery {α : Type} (sorted : List α) (limit offset : Option Int) : List α :=
  let afterOffset :=
    match offset with
    | none => sorted
    | some o => sorted.drop o.toNat
  match limit with
  | none => afterOffset
  | some l => afterOffset.take l.toNat

/-- The `LIMIT` value bound by `DB.SearchProducts`/`DB.GetProductReviews`:
present only when non-zero. -/
def limitOpt (p : Pagination) : Option Int :=
  if p.limit ≠ 0 then some p.limit else none

/-- The `OFFSET` value bound: present only when non-zero. -/
def offsetOpt (p : Pagination) : Option Int :=
  if p.offset ≠ 0 then some p.offset else none

/-- Embedding of `inventory.SearchProductsResponse`. -/
structure SearchProductsResponse where
  items : List ProductRow
  total : Int
  deriving DecidableEq, Repr

/-- Embedding of `inventory.ProductReviewsResponse`. -/
structure ProductReviewsResponse where
  reviews : List ReviewRow
  total : Int
  deriving DecidableEq, Repr

/-- Embedding of `DB.SearchProducts` run against a model store in which both statements
execute without backend failure: returns the response and the list of
statements issued (the `COUNT(*)` statement, then the page statement). -/
def searchProductsFromStore (store : List ProductRow) (params : SearchProductsParams) :
    Except GoErr SearchProductsResponse × List Statement :=
  let matching := store.filter (productMatches params)
  let page := runPageQuery (sortDescBy (fun p => p.id) matching)
      (limitOpt params.pagination) (offsetOpt params.pagination)
  let pageStmt := sqlAppendPagination params.pagination
      (searchOrderedSql params, (searchProductsWhereArgs params).1)
  ((searchProductsWithOutcomes (.ok (matching.length : Int)) none (.ok page)).map
      (fun pr => ⟨pr.1, pr.2⟩),
    [⟨searchCountSql params, (searchProductsWhereArgs params).1⟩,
     ⟨pageStmt.1, pageStmt.2⟩])

/-- Embedding of `Service.SearchProducts`: validate, then search; a validation failure
issues no statement. -/
def serviceSearchProducts (store : List ProductRow) (params : SearchProductsParams) :
    Except GoErr SearchProductsResponse × List Statement :=
  match searchProductsParamsValidate params with
  | some e => (.error e, [])
  | none => searchProductsFromStore store params

/-- Embedding of `DB.GetProductReviews` filter construction: the argument list and the
`WHERE` conjuncts, each present only for a non-empty parameter. -/
def reviewsWhereArgs (params : ProductReviewsParams) : List SqlArg × List String :=
  let args : List SqlArg := []
  let w : List String := []
  let (args, w) :=
    if params.productId ≠ "" then
      let a := args ++ [SqlArg.str params.productId]
      (a, w ++ ["\"product_id\" = $" ++ toString a.length])
    else (args, w)
  if params.reviewerId ≠ "" then
    let a := args ++ [SqlArg.str params.reviewerId]
    (a, w ++ ["\"reviewer_id\" = $" ++ toString a.length])
  else (args, w)

/-- The optional ` WHERE ...` suffix of `DB.GetProductReviews`, appended to
both the count and the page statements when any filter is present. -/
def reviewsWhereStr (params : ProductReviewsParams) : String :=
  match (reviewsWhereArgs params).2 with
  | [] => ""
  | w => " WHERE " ++ String.intercalate " AND " w

/-- The count statement SQL of `DB.GetProductReviews`. -/
def reviewsCountSql (params : ProductReviewsParams) : String :=
  "SELECT COUNT(*) AS total FROM \"review\"" ++ reviewsWhereStr params

/-- The expansion of `pgtools.Wildcard(review{})`. -/
def reviewsSelectColumns : String :=
  "\"id\",\"product_id\",\"reviewer_id\",\"title\",\"description\",\"score\",\"created_at\",\"modified_at\""

/-- The page statement SQL of `DB.GetProductReviews` before pagination. -/
def reviewsOrderedSql (params : ProductReviewsParams) : String :=
  "SELECT " ++ reviewsSelectColumns ++ " FROM \"review\"" ++ reviewsWhereStr params
    ++ " ORDER BY \"created_at\" DESC"

/-- Embedding of `DB.GetProductReviews` run against a model store in which both
statements execute without backend failure: returns the response and the
list of statements issued. -/
def getProductReviewsFromStore (store : List ReviewRow) (params : ProductReviewsParams) :
    Except GoErr ProductReviewsResponse × List Statement :=
  let matching := store.filter (reviewMatches params)
  let page := runPageQuery (sortDescBy (fun r => r.createdAt) matching)
      (limitOpt params.pagination) (offsetOpt params.pagination)
  let pageStmt := sqlAppendPagination params.pagination
      (reviewsOrderedSql params, (reviewsWhereArgs params).1)
  ((getProductReviewsWithOutcomes (.ok (matching.length : Int)) none (.ok page)).map
      (fun pr => ⟨pr.1, pr.2⟩),
    [⟨reviewsCountSql params, (reviewsWhereArgs params).1⟩,
     ⟨pageStmt.1, pageStmt.2⟩])

/-- Embedding of `Service.GetProductReviews`: requires reviewer_id or product_id, with
no pagination validation, then lists; a rejection issues no statement. -/
def serviceGetProductReviews (store : List ReviewRow) (params : ProductReviewsParams) :
    Except GoErr ProductReviewsResponse × List Statement :=
  if params.reviewerId == "" && params.productId == "" then
    (.error (.validation "missing params: reviewer_id or product_id are required"), [])
  else getProductReviewsFromStore store params

/-- Embedding of `DB.GetProduct` against a model store: the query returns the rows with
the given id (`WHERE id = $1 LIMIT 1`). -/
def getProductFromStore (store : List ProductRow) (id : String) :
    Except GoErr (Option ProductRow) :=
  getProduct none (collectOneRow ((store.filter (fun p => p.id == id)).take 1))

/-- Embedding of `DB.GetProductReview` against a model store. -/
def getProductReviewFromStore (store : List ReviewRow) (id : String) :
    Except GoErr (Option ReviewRow) :=
  getProductReview none (collectOneRow ((store.filter (fun r => r.id == id)).take 1))

/-- Embedding of `Service.GetProduct`: reject an empty id, else fetch. -/
def serviceGetProduct (store : List ProductRow) (id : String) :
    Except GoErr (Option ProductRow) :=
  if id == "" then .error (.validation "missing product ID")
  else getProductFromStore store id

/-- Embedding of `Service.GetProductReview`: reject an empty id, else fetch. -/
def serviceGetProductReview (store : List ReviewRow) (id : String) :
    Except GoErr (Option ReviewRow) :=
  if id == "" then .error (.validation "missing review ID")
  else getProductReviewFromStore store id

/-- Embedding of `DB.DeleteProduct` against a model store: the delete statement executes
without backend error and affects the matching rows. -/
def deleteProductFromStore (store : List ProductRow) (id : String) : Option GoErr :=
  deleteProduct (.ok (store.filter (fun p => p.id == id)).length)

/-- Embedding of `DB.DeleteProductReview` against a model store. -/
def deleteProductReviewFromStore (store : List ReviewRow) (id : String) : Option GoErr :=
  deleteProductReview (.ok (store.filter (fun r => r.id == id)).length)

/-- A transaction or connection handle. -/
abbrev Handle := Nat

/-- The executor a data operation runs on. -/
inductive Executor where
  | tx (t : Handle)
  | conn (c : Handle)
  | pool
  deriving DecidableEq, Repr

/-- The request context, as seen by `DB.conn`: the optional transaction
stored under the `txCtx` key and the optional reserved connection stored
under the `connCtx` key. -/
structure Ctx where
  txCtx : Option Handle
  connCtx : Option Handle
  deriving DecidableEq, Repr

/-- Embedding of `DB.conn` from internal/postgres/postgres.go: the transaction in
context if any, else the reserved connection if any, else the pool. Every
data operation obtains its executor through this function. -/
def dbConn (ctx : Ctx) : Executor :=
  match ctx.txCtx with
  | some tx => .tx tx
  | none =>
    match ctx.connCtx with
    | some res => .conn res
    | none => .pool

/-- Membership in the insertion step of the descending sort. -/
lemma mem_insertDescBy {α κ : Type} [LinearOrder κ] (key : α → κ) (x z : α)
    (l : List α) : z ∈ insertDescBy key x l ↔ z = x ∨ z ∈ l := by
  induction l with
  | nil => simp [insertDescBy]
  | cons y ys ih =>
    simp only [insertDescBy]
    split
    · simp [List.mem_cons]
    · simp only [List.mem_cons, ih]
      tauto

/-- The insertion step preserves descending sortedness. -/
lemma pairwise_insertDescBy {α κ : Type} [LinearOrder κ] (key : α → κ) (x : α)
    (l : List α) (h : l.Pairwise (fun a b => key b ≤ key a)) :
    (insertDescBy key x l).Pairwise (fun a b => key b ≤ key a) := by
  induction l with
  | nil => simp [insertDescBy]
  | cons y ys ih =>
    rcases List.pairwise_cons.mp h with ⟨hy, hys⟩
    simp only [insertDescBy]
    split
    · rename_i hle
      refine List.pairwise_cons.mpr ⟨?_, h⟩
      intro z hz
      rcases List.mem_cons.mp hz with rfl | hz
      · exact hle
      · exact le_trans (hy z hz) hle
    · rename_i hgt
      refine List.pairwise_cons.mpr ⟨?_, ih hys⟩
      intro z hz
      rcases (mem_insertDescBy key x z ys).mp hz with rfl | hz
      · exact le_of_not_le hgt
      · exact hy z hz

/-- The descending sort keeps exactly the members of its input. -/
lemma mem_sortDescBy {α κ : Type} [LinearOrder κ] (key : α → κ) (z : α)
    (l : List α) : z ∈ sortDescBy key l ↔ z ∈ l := by
  induction l with
  | nil => simp [sortDescBy]
  | cons x xs ih => simp [sortDescBy, mem_insertDescBy, ih]

/-- The descending sort is sorted: each element dominates all later ones. -/
lemma pairwise_sortDescBy {α κ : Type} [LinearOrder κ] (key : α → κ)
    (l : List α) : (sortDescBy key l).Pairwise (fun a b => key b ≤ key a) := by
  induction l with
  | nil => simp [sortDescBy]
  | cons x xs ih => exact pairwise_insertDescBy key x _ ih

/-- A page query result is a sublist of the sorted row list. -/
lemma runPageQuery_sublist {α : Type} (sorted : List α) (lo oo : Option Int) :
    List.Sublist (runPageQuery sorted lo oo) sorted := by
  cases oo <;> cases lo <;> simp only [runPageQuery] <;>
    first
      | exact List.Sublist.refl _
      | exact List.take_sublist _ _
      | exact List.drop_sublist _ _
      | exact (List.take_sublist _ _).trans (List.drop_sublist _ _)

/-- Appending the empty string is the identity. -/
lemma strAppendEmpty (s : String) : s ++ "" = s := by
  cases s
  exact congrArg String.mk (List.append_nil _)

/-- The pagination clause construction only ever appends to the base SQL. -/
lemma sqlAppendPagination_sql (p : Pagination) (base : String) (args : List SqlArg) :
    ∃ tail, (sqlAppendPagination p (base, args)).1 = base ++ tail := by
  by_cases hl : p.limit = 0 <;> by_cases ho : p.offset = 0 <;>
    simp only [sqlAppendPagination, hl, ho, ne_eq, not_true_eq_false, not_false_eq_true,
      if_true, if_false, ite_true, ite_false, reduceIte]
  · exact ⟨"", (strAppendEmpty base).symm⟩
  · exact ⟨_, rfl⟩
  · exact ⟨_, rfl⟩
  · exact ⟨_, String.append_assoc _ _ _⟩

/-- An errors.Is failure implies an identity-comparison failure. -/
lemma beq_false_of_errorsIs_false {e t : GoErr} (h : errorsIs e t = false) :
    (e == t) = false := by
  cases e
  case wrap i =>
    have h' : ((GoErr.wrap i == t) || errorsIs i t) = false := h
    exact (Bool.or_eq_false_iff.mp h').1
  all_goals exact h

/-- Helper for C6: an invalid pagination always makes search validation
fail with some `ValidationError`. -/
lemma searchValidateSome (params : SearchProductsParams)
    (h : params.pagination.limit < 1 ∨ params.pagination.offset < 0) :
    ∃ m, searchProductsParamsValidate params = some (GoErr.validation m) := by
  unfold searchProductsParamsValidate paginationValidate
  split
  · exact ⟨_, rfl⟩
  · split
    · exact ⟨_, rfl⟩
    · split
      · exact ⟨_, rfl⟩
      · split
        · exact ⟨_, rfl⟩
        · split
          · exact ⟨_, rfl⟩
          · rename_i h1 h2
            omega

/-- Claim C1: for every data operation, the executor is resolved in this
fixed order: if the context carries an open transaction, the transaction is
used; otherwise, if the context carries a reserved connection, that
connection is used; otherwise the shared pool is used. Every repository
method obtains its executor via `DB.conn`, which is `dbConn` here. -/
theorem claim1_executor_resolution :
    ∀ ctx : Ctx,
      (∀ t, ctx.txCtx = some t → dbConn ctx = .tx t) ∧
      (ctx.txCtx = none → ∀ c, ctx.connCtx = some c → dbConn ctx = .conn c) ∧
      (ctx.txCtx = none → ctx.connCtx = none → dbConn ctx = .pool) := by
  intro ctx
  refine ⟨?_, ?_, ?_⟩
  · intro t ht
    simp [dbConn, ht]
  · intro ht c hc
    simp [dbConn, ht, hc]
  · intro ht hc
    simp [dbConn, ht, hc]

/-- Witness for C1: the three tiers observed at concrete contexts. -/
theorem claim1_executor_resolution_witness :
    dbConn ⟨some 7, some 3⟩ = .tx 7 ∧
    dbConn ⟨none, some 3⟩ = .conn 3 ∧
    dbConn ⟨none, none⟩ = .pool :=
  ⟨(claim1_executor_resolution ⟨some 7, some 3⟩).1 7 rfl,
   (claim1_executor_resolution ⟨none, some 3⟩).2.1 rfl 3 rfl,
   (claim1_executor_resolution ⟨none, none⟩).2.2 rfl rfl⟩

/-- Claim C7: an Update of a product or review that executes without a
backend error but affects zero rows returns the typed not-found error
(`ErrProductNotFound` / `ErrReviewNotFound`), which is distinct from any
`ValidationError`. -/
theorem claim7_update_not_found :
    updateProduct (.ok 0) = some ErrProductNotFound ∧
    updateProductReview (.ok 0) = some ErrReviewNotFound ∧
    (∀ m, (ErrProductNotFound == GoErr.validation m) = false) ∧
    (∀ m, (ErrReviewNotFound == GoErr.validation m) = false) :=
  ⟨rfl, rfl, fun _ => rfl, fun _ => rfl⟩

/-- Claim C8: DeleteProduct and DeleteProductReview are idempotent: a
delete that executes without backend error returns nil, whatever the
rows-affected count; over a model store, deleting any id (present or
absent) succeeds. -/
theorem claim8_delete_idempotent :
    (∀ n : Nat, deleteProduct (.ok n) = none) ∧
    (∀ n : Nat, deleteProductReview (.ok n) = none) ∧
    (∀ (store : List ProductRow) (id : String), deleteProductFromStore store id = none) ∧
    (∀ (store : List ReviewRow) (id : String),
      deleteProductReviewFromStore store id = none) :=
  ⟨fun _ => rfl, fun _ => rfl, fun _ _ => rfl, fun _ _ => rfl⟩

/-- Claim C3: the error translator maps a backend unique-violation to
"<entity> already exists", a check-constraint violation to the
constraint-name-specific message, a foreign-key violation on the
review→product relationship to the sentinel `ErrCreateReviewNoProduct`,
and any other backend error to the generic "cannot <operation> <entity> on
database" message, which is a fixed constant and so never carries the raw
backend error (logging is a side effect outside the embedding). -/
theorem claim3_error_translation :
    (∀ c, productPgError (.pgError uniqueViolation c) =
      some (.errorsNew "product already exists")) ∧
    productPgError (.pgError checkViolation "product_id_check") =
      some (.errorsNew "invalid product ID") ∧
    productPgError (.pgError checkViolation "product_name_check") =
      some (.errorsNew "invalid product name") ∧
    productPgError (.pgError checkViolation "product_price_check") =
      some (.errorsNew "invalid price") ∧
    (∀ c, productReviewPgError (.pgError uniqueViolation c) =
      some (.errorsNew "product review already exists")) ∧
    productReviewPgError (.pgError foreignKeyViolation "review_product_id_fkey") =
      some ErrCreateReviewNoProduct ∧
    productReviewPgError (.pgError checkViolation "review_id_check") =
      some (.errorsNew "invalid product review ID") ∧
    productReviewPgError (.pgError checkViolation "review_title_check") =
      some (.errorsNew "invalid title") ∧
    productReviewPgError (.pgError checkViolation "review_score_check") =
      some (.errorsNew "invalid score") ∧
    (∀ c, createProduct (.error (.pgError uniqueViolation c)) =
      some (.errorsNew "product already exists")) ∧
    createProductReview (.error (.pgError foreignKeyViolation "review_product_id_fkey")) =
      some ErrCreateReviewNoProduct ∧
    (∀ err, errorsIs err .canceled = false → errorsIs err .deadlineExceeded = false →
      productPgError err = none →
      createProduct (.error err) = some (.errorsNew "cannot create product on database") ∧
      updateProduct (.error err) = some (.errorsNew "cannot update product on database")) ∧
    (∀ err, errorsIs err .canceled = false → errorsIs err .deadlineExceeded = false →
      productReviewPgError err = none →
      createProductReview (.error err) =
        some (.errorsNew "cannot create review on database") ∧
      updateProductReview (.error err) =
        some (.errorsNew "cannot update review on database")) := by
  refine ⟨fun c => rfl, rfl, rfl, rfl, fun c => rfl, rfl, rfl, rfl, rfl,
    fun c => rfl, rfl, ?_, ?_⟩
  · intro err h1 h2 hpg
    constructor
    · simp [createProduct, h1, h2, hpg]
    · simp [updateProduct, beq_false_of_errorsIs_false h1,
        beq_false_of_errorsIs_false h2, hpg]
  · intro err h1 h2 hpg
    constructor
    · simp [createProductReview, h1, h2, hpg]
    · simp [updateProductReview, h1, h2, hpg]

/-- Witness for C3: the generic fallthrough observed at a concrete
non-constraint backend error. -/
theorem claim3_error_translation_witness :
    createProduct (.error (.errorsNew "connection reset")) =
      some (.errorsNew "cannot create product on database") ∧
    updateProductReview (.error (.errorsNew "connection reset")) =
      some (.errorsNew "cannot update review on database") :=
  ⟨(claim3_error_translation.2.2.2.2.2.2.2.2.2.2.2.1
      (.errorsNew "connection reset") (by decide) (by decide) (by decide)).1,
   (claim3_error_translation.2.2.2.2.2.2.2.2.2.2.2.2
      (.errorsNew "connection reset") (by decide) (by decide) (by decide)).2⟩

/-- Counterexample to C5 as stated: a create-product request whose
description is the empty string and whose remaining fields are valid is
rejected by validation with "missing product description"; the create is
not issued to the store. -/
theorem claim5_counterexample :
    serviceCreateProduct ⟨"product1", "name", "", 10⟩ (.ok 1) =
      (some (.validation "missing product description"), false) := rfl

/-- Claim C5 as amended: `CreateProductParams.validate` rejects an empty
description with the `ValidationError` "missing product description"
before any statement is issued (even though the schema itself allows an
empty description); with a non-empty description and the remaining fields
valid, validation accepts and the create is issued to the store. -/
theorem claim5_amended :
    ∀ (p : CreateProductParams) (res : ExecResult),
      (p.description = "" → p.id ≠ "" → p.name ≠ "" →
        serviceCreateProduct p res =
          (some (.validation "missing product description"), false)) ∧
      (p.id ≠ "" → p.name ≠ "" → p.description ≠ "" → 0 ≤ p.price →
        serviceCreateProduct p res = (createProduct res, true)) := by
  intro p res
  constructor
  · intro hd hid hname
    simp [serviceCreateProduct, createProductParamsValidate, hd,
      beq_eq_false_iff_ne.mpr hid, beq_eq_false_iff_ne.mpr hname]
  · intro hid hname hd hp
    simp [serviceCreateProduct, createProductParamsValidate,
      beq_eq_false_iff_ne.mpr hid, beq_eq_false_iff_ne.mpr hname,
      beq_eq_false_iff_ne.mpr hd, not_lt.mpr hp]

/-- Witness for C5 as amended: rejection and acceptance at concrete
requests. -/
theorem claim5_amended_witness :
    serviceCreateProduct ⟨"p1", "n", "", 1⟩ (.ok 1) =
      (some (.validation "missing product description"), false) ∧
    serviceCreateProduct ⟨"p1", "n", "desc", 1⟩ (.ok 1) = (createProduct (.ok 1), true) :=
  ⟨(claim5_amended ⟨"p1", "n", "", 1⟩ (.ok 1)).1 rfl (by decide) (by decide),
   (claim5_amended ⟨"p1", "n", "desc", 1⟩ (.ok 1)).2
      (by decide) (by decide) (by decide) (by decide)⟩

/-- Counterexample to C6 as stated: review listing does not validate
pagination — a request with limit 0 (< 1) and a present product id is not
rejected; both statements are issued and the call succeeds. -/
theorem claim6_counterexample :
    (0 : Int) < 1 ∧
    (serviceGetProductReviews [] ⟨"product1", "", ⟨0, 0⟩⟩).1 = .ok ⟨[], 0⟩ ∧
    ((serviceGetProductReviews [] ⟨"product1", "", ⟨0, 0⟩⟩).2).length = 2 :=
  ⟨by decide, rfl, rfl⟩

/-- Claim C6 as amended: product search rejects limit < 1 or offset < 0
with a `ValidationError` before any statement is issued; review listing
performs no pagination validation — whenever a product id is supplied, it
issues its two statements regardless of the pagination values. -/
theorem claim6_amended :
    ∀ (pstore : List ProductRow) (params : SearchProductsParams),
      (params.pagination.limit < 1 ∨ params.pagination.offset < 0 →
        ∃ m, (serviceSearchProducts pstore params).1 = .error (.validation m) ∧
          (serviceSearchProducts pstore params).2 = []) ∧
      ∀ (rstore : List ReviewRow) (rparams : ProductReviewsParams),
        rparams.productId ≠ "" →
        ∃ resp, (serviceGetProductReviews rstore rparams).1 = .ok resp ∧
          ((serviceGetProductReviews rstore rparams).2).length = 2 := by
  intro pstore params
  constructor
  · intro h
    obtain ⟨m, hm⟩ := searchValidateSome params h
    exact ⟨m, by simp [serviceSearchProducts, hm], by simp [serviceSearchProducts, hm]⟩
  · intro rstore rparams hpid
    have hc : (rparams.reviewerId == "" && rparams.productId == "") = false := by
      simp [beq_eq_false_iff_ne.mpr hpid]
    have hsvc : serviceGetProductReviews rstore rparams =
        getProductReviewsFromStore rstore rparams := by
      simp [serviceGetProductReviews, hc]
    rw [hsvc]
    exact ⟨⟨runPageQuery
        (sortDescBy (fun r => r.createdAt) (rstore.filter (reviewMatches rparams)))
        (limitOpt rparams.pagination) (offsetOpt rparams.pagination),
      ((rstore.filter (reviewMatches rparams)).length : Int)⟩, rfl, rfl⟩

/-- Witness for C6 as amended: search rejection and review listing
pass-through at concrete inputs. -/
theorem claim6_amended_witness :
    (serviceSearchProducts [] ⟨"q", 0, 0, ⟨0, 0⟩⟩).2 = [] ∧
    ((serviceGetProductReviews [] ⟨"p1", "", ⟨0, 5⟩⟩).2).length = 2 := by
  constructor
  · obtain ⟨m, _, h2⟩ :=
      (claim6_amended [] ⟨"q", 0, 0, ⟨0, 0⟩⟩).1 (Or.inl (by decide))
    exact h2
  · obtain ⟨resp, _, h2⟩ :=
      (claim6_amended [] ⟨"q", 0, 0, ⟨0, 0⟩⟩).2 [] ⟨"p1", "", ⟨0, 5⟩⟩ (by decide)
    exact h2

/-- Claim C9: for every non-empty id whose row is absent from the store,
GetProduct and GetProductReview return a nil result with a nil error. -/
theorem claim9_get_absent_nil_nil :
    ∀ (ps : List ProductRow) (rs : List ReviewRow) (id : String),
      id ≠ "" →
      (∀ p ∈ ps, p.id ≠ id) →
      (∀ r ∈ rs, r.id ≠ id) →
      serviceGetProduct ps id = .ok none ∧
      serviceGetProductReview rs id = .ok none := by
  intro ps rs id hid hp hr
  have hpf : ps.filter (fun p => p.id == id) = [] := by
    rw [List.filter_eq_nil_iff]
    intro a ha
    simp [beq_eq_false_iff_ne.mpr (hp a ha)]
  have hrf : rs.filter (fun r => r.id == id) = [] := by
    rw [List.filter_eq_nil_iff]
    intro a ha
    simp [beq_eq_false_iff_ne.mpr (hr a ha)]
  constructor
  · have h1 : getProductFromStore ps id = .ok none := by
      rw [getProductFromStore, hpf]
      rfl
    simp [serviceGetProduct, beq_eq_false_iff_ne.mpr hid, h1]
  · have h1 : getProductReviewFromStore rs id = .ok none := by
      rw [getProductReviewFromStore, hrf]
      rfl
    simp [serviceGetProductReview, beq_eq_false_iff_ne.mpr hid, h1]

/-- Witness for C9: absent id against concrete stores. -/
theorem claim9_get_absent_nil_nil_witness :
    serviceGetProduct [] "missing" = .ok none ∧
    serviceGetProductReview [] "missing" = .ok none :=
  claim9_get_absent_nil_nil [] [] "missing" (by decide) (by simp) (by simp)

/-- Claim C4: product search and review listing each issue exactly two
statements built from the same filter predicate — first a `COUNT(*)` query
whose result becomes `Total`, then the filtered, ordered, limited/offset
page query; the product page is ordered descending by identifier and the
review page descending by creation time (stated as pairwise sortedness of
the returned items). -/
theorem claim4_count_then_page :
    ∀ (pstore : List ProductRow) (sparams : SearchProductsParams)
      (rstore : List ReviewRow) (rparams : ProductReviewsParams),
      (∃ s0 s1, (searchProductsFromStore pstore sparams).2 = [s0, s1] ∧
        s0.sql = "SELECT COUNT(*) AS total FROM \"product\" WHERE "
          ++ searchWhereClause sparams ∧
        (∃ tail, s1.sql = "SELECT * FROM \"product\" WHERE "
          ++ searchWhereClause sparams ++ " ORDER BY \"id\" DESC" ++ tail)) ∧
      (∃ resp, (searchProductsFromStore pstore sparams).1 = .ok resp ∧
        resp.total = ((pstore.filter (productMatches sparams)).length : Int) ∧
        resp.items.Pairwise (fun a b => b.id ≤ a.id)) ∧
      (∃ s0 s1, (getProductReviewsFromStore rstore rparams).2 = [s0, s1] ∧
        s0.sql = "SELECT COUNT(*) AS total FROM \"review\"" ++ reviewsWhereStr rparams ∧
        (∃ tail, s1.sql = "SELECT " ++ reviewsSelectColumns ++ " FROM \"review\""
          ++ reviewsWhereStr rparams ++ " ORDER BY \"created_at\" DESC" ++ tail)) ∧
      (∃ resp, (getProductReviewsFromStore rstore rparams).1 = .ok resp ∧
        resp.total = ((rstore.filter (reviewMatches rparams)).length : Int) ∧
        resp.reviews.Pairwise (fun a b => b.createdAt ≤ a.createdAt)) := by
  intro pstore sparams rstore rparams
  refine ⟨⟨_, _, rfl, rfl, ?_⟩, ⟨⟨_, _⟩, rfl, rfl, ?_⟩,
    ⟨_, _, rfl, rfl, ?_⟩, ⟨⟨_, _⟩, rfl, rfl, ?_⟩⟩
  · exact sqlAppendPagination_sql sparams.pagination (searchOrderedSql sparams)
      (searchProductsWhereArgs sparams).1
  · exact (pairwise_sortDescBy (fun p : ProductRow => p.id) _).sublist
      (runPageQuery_sublist _ _ _)
  · exact sqlAppendPagination_sql rparams.pagination (reviewsOrderedSql rparams)
      (reviewsWhereArgs rparams).1
  · exact (pairwise_sortDescBy (fun r : ReviewRow => r.createdAt) _).sublist
      (runPageQuery_sublist _ _ _)

/-- Claim C10: pagination clauses are appended to the page statement only
for non-zero values, each field independently: whenever Limit is 0 no
`LIMIT` clause is added (the page SQL carries at most the `OFFSET` suffix)
and the returned page is the whole sorted matching list minus only the
offset-skipped rows — no `LIMIT` truncation; whenever Offset is 0 no
`OFFSET` clause is added (including the first-page Limit > 0 case, whose
page SQL carries exactly the `LIMIT` suffix); in particular a zero-valued
Pagination leaves the page SQL bare and returns every matching row, for
both review listing and product search. -/
theorem claim10_zero_pagination :
    ∀ (rstore : List ReviewRow) (rparams : ProductReviewsParams)
      (pstore : List ProductRow) (sparams : SearchProductsParams),
      (∃ s0 s1, (getProductReviewsFromStore rstore rparams).2 = [s0, s1] ∧
        (rparams.pagination.limit = 0 → rparams.pagination.offset = 0 →
          s1.sql = reviewsOrderedSql rparams) ∧
        (rparams.pagination.limit = 0 → rparams.pagination.offset ≠ 0 →
          s1.sql = reviewsOrderedSql rparams ++ (" OFFSET $" ++ toString
            ((reviewsWhereArgs rparams).1 ++ [SqlArg.int rparams.pagination.offset]).length)) ∧
        (rparams.pagination.limit ≠ 0 → rparams.pagination.offset = 0 →
          s1.sql = reviewsOrderedSql rparams ++ (" LIMIT $" ++ toString
            ((reviewsWhereArgs rparams).1 ++ [SqlArg.int rparams.pagination.limit]).length))) ∧
      (rparams.pagination.limit = 0 →
        ∃ resp, (getProductReviewsFromStore rstore rparams).1 = .ok resp ∧
          resp.reviews = (sortDescBy (fun r => r.createdAt)
            (rstore.filter (reviewMatches rparams))).drop rparams.pagination.offset.toNat ∧
          (rparams.pagination.offset = 0 →
            resp.reviews = sortDescBy (fun r => r.createdAt)
              (rstore.filter (reviewMatches rparams)))) ∧
      (∃ s0 s1, (searchProductsFromStore pstore sparams).2 = [s0, s1] ∧
        (sparams.pagination.limit = 0 → sparams.pagination.offset = 0 →
          s1.sql = searchOrderedSql sparams) ∧
        (sparams.pagination.limit = 0 → sparams.pagination.offset ≠ 0 →
          s1.sql = searchOrderedSql sparams ++ (" OFFSET $" ++ toString
            ((searchProductsWhereArgs sparams).1
              ++ [SqlArg.int sparams.pagination.offset]).length)) ∧
        (sparams.pagination.limit ≠ 0 → sparams.pagination.offset = 0 →
          s1.sql = searchOrderedSql sparams ++ (" LIMIT $" ++ toString
            ((searchProductsWhereArgs sparams).1
              ++ [SqlArg.int sparams.pagination.limit]).length))) ∧
      (sparams.pagination.limit = 0 →
        ∃ resp, (searchProductsFromStore pstore sparams).1 = .ok resp ∧
          resp.items = (sortDescBy (fun p => p.id)
            (pstore.filter (productMatches sparams))).drop sparams.pagination.offset.toNat ∧
          (sparams.pagination.offset = 0 →
            resp.items = sortDescBy (fun p => p.id)
              (pstore.filter (productMatches sparams)))) := by
  intro rstore rparams pstore sparams
  refine ⟨⟨_, _, rfl, ?_, ?_, ?_⟩, ?_, ⟨_, _, rfl, ?_, ?_, ?_⟩, ?_⟩
  · intro hl ho
    simp [sqlAppendPagination, hl, ho]
  · intro hl ho
    simp [sqlAppendPagination, hl, ho]
  · intro hl ho
    simp [sqlAppendPagination, hl, ho]
  · intro hl
    refine ⟨_, rfl, ?_, ?_⟩
    · by_cases ho : rparams.pagination.offset = 0 <;>
        simp [runPageQuery, limitOpt, offsetOpt, hl, ho]
    · intro ho
      simp [runPageQuery, limitOpt, offsetOpt, hl, ho]
  · intro hl ho
    simp [sqlAppendPagination, hl, ho]
  · intro hl ho
    simp [sqlAppendPagination, hl, ho]
  · intro hl ho
    simp [sqlAppendPagination, hl, ho]
  · intro hl
    refine ⟨_, rfl, ?_, ?_⟩
    · by_cases ho : sparams.pagination.offset = 0 <;>
        simp [runPageQuery, limitOpt, offsetOpt, hl, ho]
    · intro ho
      simp [runPageQuery, limitOpt, offsetOpt, hl, ho]

/-- A sample review row for the C10 witness. -/
def sampleReview : ReviewRow :=
  ⟨"r1", "p1", "u1", 5, "great", "works well", 10, 10⟩

/-- Witness for C10: a review listing with Limit 0 and Offset 5 carries an
`OFFSET` clause but no `LIMIT` clause, and one with zero-valued Pagination
returns every matching review of a concrete one-review store. -/
theorem claim10_zero_pagination_witness :
    (∃ s0 s1, (getProductReviewsFromStore [sampleReview] ⟨"p1", "", ⟨0, 5⟩⟩).2 = [s0, s1] ∧
      s1.sql = reviewsOrderedSql ⟨"p1", "", ⟨0, 5⟩⟩ ++ (" OFFSET $" ++ toString
        ((reviewsWhereArgs ⟨"p1", "", ⟨0, 5⟩⟩).1 ++ [SqlArg.int 5]).length)) ∧
    (∃ resp, (getProductReviewsFromStore [sampleReview] ⟨"p1", "", ⟨0, 0⟩⟩).1 = .ok resp ∧
      resp.reviews = sortDescBy (fun r => r.createdAt)
        ([sampleReview].filter (reviewMatches ⟨"p1", "", ⟨0, 0⟩⟩))) := by
  constructor
  · obtain ⟨s0, s1, hlist, hA, hB, hC⟩ :=
      (claim10_zero_pagination [sampleReview] ⟨"p1", "", ⟨0, 5⟩⟩ [] ⟨"q", 0, 0, ⟨0, 0⟩⟩).1
    exact ⟨s0, s1, hlist, hB rfl (by decide)⟩
  · obtain ⟨resp, h1, h2, h3⟩ :=
      (claim10_zero_pagination [sampleReview] ⟨"p1", "", ⟨0, 0⟩⟩ [] ⟨"q", 0, 0, ⟨0, 0⟩⟩).2.1 rfl
    exact ⟨resp, h1, h3 rfl⟩

end Pgxtutorial
